import Mathlib

/-!
Shallow embedding of the progress streaming gateway of the AI-dj backend
(src/services/backend/src/main.rs: handle_mix_socket and sse_mix_handler,
and src/services/backend/src/db.rs), together with proofs about the
claims on classification, normalization, persistence and ordering.

Conventions of the embedding:
- Rust strings are Lean `String`s (all inputs of interest are ASCII, so
  byte-level and char-level operations agree).
- serde_json::Value is modelled by `Json` below.  serde_json object maps
  are BTreeMaps with string keys, so objects are kept as association
  lists sorted by key, with a later insertion of an existing key
  overwriting the earlier one.  Numeric literals are modelled as
  integers; float syntax is rejected by the modelled parser (no claim
  exercises non-integer numbers).  In string literals, the \u escape is
  modelled for BMP scalar values and surrogate pairs are not modelled
  (no claim exercises them).
- The per-connection gateway loops are modelled as functions from the
  list of bus messages delivered to the subscription to the list of
  observable actions (transport sends and database write attempts),
  plus how the loop ended.  The two other select arms of the WebSocket
  loop (inbound client frames and the heartbeat timer) are independent
  branches that do not touch the bus-message path; the claims treated
  here quantify over bus-driven runs, so those arms are out of the
  modelled state space.
- Database writes in the source return a Result that the gateway only
  logs; the model threads an oracle `dbOk : DbWrite → Bool` giving the
  outcome of each attempted write and records the attempt in the trace.
-/

/-! ## String utilities (Rust `str::ends_with`, `str::contains`, Redis glob) -/

/-- Boolean test that the first list is a leading segment of the second. -/
def headMatches : List Char → List Char → Bool
  | [], _ => true
  | _ :: _, [] => false
  | p :: ps, c :: s => p == c && headMatches ps s

/-- Rust `s.ends_with(pat)`: `pat` is a trailing segment of `s`. -/
def endsWithStr (s pat : String) : Bool :=
  headMatches pat.toList.reverse s.toList.reverse

/-- Helper for `occursIn`: does `pat` occur somewhere in the list. -/
def occursAux (pat : List Char) : List Char → Bool
  | [] => headMatches pat []
  | c :: s => headMatches pat (c :: s) || occursAux pat s

/-- Rust `s.contains(pat)`: substring occurrence. -/
def occursIn (s pat : String) : Bool := occursAux pat.toList s.toList

/-- Redis glob matching restricted to literal characters and `*`
(the only constructs used by the subscription pattern `mix:*:*`; `*`
matches any sequence of characters, including `:`, realized here as a
search over how many characters the star consumes). -/
def globMatch : List Char → List Char → Bool
  | [], s => s.isEmpty
  | '*' :: ps, s => (List.range (s.length + 1)).any (fun n => globMatch ps (s.drop n))
  | p :: ps, s =>
    match s with
    | [] => false
    | c :: s2 => p == c && globMatch ps s2

/-! ## JSON model (serde_json::Value with BTreeMap object maps) -/

/-- JSON values as produced by serde_json parsing and the json! macro. -/
inductive Json where
  | null
  | bool (b : Bool)
  | num (n : Int)
  | str (s : String)
  | arr (elems : List Json)
  | obj (fields : List (String × Json))

/-- Lexicographic order on character lists (the BTreeMap key order; all
keys of interest are ASCII, where this agrees with Rust's byte order). -/
def charListLt : List Char → List Char → Bool
  | [], [] => false
  | [], _ :: _ => true
  | _ :: _, [] => false
  | a :: as, b :: bs =>
    if a.toNat < b.toNat then true
    else if b.toNat < a.toNat then false
    else charListLt as bs

/-- Key order used by the object maps. -/
def strLt (a b : String) : Bool := charListLt a.toList b.toList

/-- Insertion into a key-sorted association list, overwriting an existing
binding; models insertion into serde_json's BTreeMap. -/
def insertField (k : String) (v : Json) : List (String × Json) → List (String × Json)
  | [] => [(k, v)]
  | (k', v') :: rest =>
    if strLt k k' then (k, v) :: (k', v') :: rest
    else if k = k' then (k, v) :: rest
    else (k', v') :: insertField k v rest

/-- Build an object from fields given in insertion order (the json! macro
and the parser both insert into a BTreeMap). -/
def objOf (l : List (String × Json)) : Json :=
  Json.obj (l.foldl (fun acc kv => insertField kv.1 kv.2 acc) [])

/-- Field lookup in an object's association list. -/
def lookupField : List (String × Json) → String → Option Json
  | [], _ => none
  | (k', v) :: fs, k => if k' = k then some v else lookupField fs k

/-- serde_json `value.get(key)`: `none` unless the value is an object
with that key. -/
def Json.getField : Json → String → Option Json
  | .obj fs, k => lookupField fs k
  | _, _ => none

/-- serde_json `value.as_str()`. -/
def Json.asString : Json → Option String
  | .str s => some s
  | _ => none

/-- Rust `v.get(k).and_then(|x| x.as_str())`. -/
def getStr (j : Json) (k : String) : Option String :=
  (j.getField k).bind Json.asString

/-! ### Parser (serde_json::from_str on a whole string, strict) -/

/-- Skip JSON whitespace. -/
def skipWs : List Char → List Char
  | [] => []
  | c :: cs => if c = ' ' ∨ c = '\t' ∨ c = '\n' ∨ c = '\r' then skipWs cs else c :: cs

/-- Hex digit value of a character, if any. -/
def hexVal (c : Char) : Option Nat :=
  if '0' ≤ c ∧ c ≤ '9' then some (c.toNat - 48)
  else if 'a' ≤ c ∧ c ≤ 'f' then some (c.toNat - 87)
  else if 'A' ≤ c ∧ c ≤ 'F' then some (c.toNat - 70)
  else none

/-- Short escape sequences accepted inside JSON string literals. -/
def escCharVal (c : Char) : Option Char :=
  if c = '"' then some '"'
  else if c = '\\' then some '\\'
  else if c = '/' then some '/'
  else if c = 'b' then some '\x08'
  else if c = 'f' then some '\x0C'
  else if c = 'n' then some '\n'
  else if c = 'r' then some '\r'
  else if c = 't' then some '\t'
  else none

/-- Parse the body of a string literal (after the opening quote), up to
and including the closing quote; unescaped control characters are
rejected as in serde_json strict parsing. -/
def parseStrChars : List Char → Option (List Char × List Char)
  | [] => none
  | '"' :: rest => some ([], rest)
  | '\\' :: 'u' :: h1 :: h2 :: h3 :: h4 :: rest =>
    (match hexVal h1, hexVal h2, hexVal h3, hexVal h4 with
     | some a, some b, some c2, some d =>
       (parseStrChars rest).map
         (fun p => (Char.ofNat (((a * 16 + b) * 16 + c2) * 16 + d) :: p.1, p.2))
     | _, _, _, _ => none)
  | '\\' :: e :: rest =>
    (match escCharVal e with
     | some ch => (parseStrChars rest).map (fun p => (ch :: p.1, p.2))
     | none => none)
  | '\\' :: [] => none
  | c :: rest =>
    if c.toNat < 32 then none
    else (parseStrChars rest).map (fun p => (c :: p.1, p.2))

/-- Longest leading run of decimal digits. -/
def spanDigits : List Char → List Char × List Char
  | [] => ([], [])
  | c :: cs =>
    if c.isDigit then
      let p := spanDigits cs
      (c :: p.1, p.2)
    else ([], c :: cs)

/-- Digit list to natural number. -/
def digitsToNat (ds : List Char) : Nat :=
  ds.foldl (fun a c => a * 10 + (c.toNat - 48)) 0

/-- Parse an unsigned integer literal: no leading zeros, and reject a
following fraction or exponent (floats are outside the model). -/
def parseNatNum (cs : List Char) : Option (Nat × List Char) :=
  let p := spanDigits cs
  match p.1 with
  | [] => none
  | '0' :: _ :: _ => none
  | _ =>
    match p.2 with
    | c :: _ => if c = '.' ∨ c = 'e' ∨ c = 'E' then none else some (digitsToNat p.1, p.2)
    | [] => some (digitsToNat p.1, p.2)

/-- Parse a (possibly negated) integer literal. -/
def parseNum : List Char → Option (Json × List Char)
  | '-' :: rest => (parseNatNum rest).map (fun p => (Json.num (-(p.1 : Int)), p.2))
  | cs => (parseNatNum cs).map (fun p => (Json.num (p.1 : Int), p.2))

mutual

/-- Fuel-indexed recursive-descent JSON value parser. -/
def parseVal : Nat → List Char → Option (Json × List Char)
  | 0, _ => none
  | Nat.succ f, cs =>
    match skipWs cs with
    | [] => none
    | 'n' :: 'u' :: 'l' :: 'l' :: r => some (Json.null, r)
    | 't' :: 'r' :: 'u' :: 'e' :: r => some (Json.bool true, r)
    | 'f' :: 'a' :: 'l' :: 's' :: 'e' :: r => some (Json.bool false, r)
    | '"' :: rest => (parseStrChars rest).map (fun p => (Json.str (String.mk p.1), p.2))
    | '[' :: rest =>
      (match skipWs rest with
       | ']' :: r2 => some (Json.arr [], r2)
       | other => (parseElems f other).map (fun p => (Json.arr p.1, p.2)))
    | '\x7b' :: rest =>
      (match skipWs rest with
       | '\x7d' :: r2 => some (objOf [], r2)
       | other => (parseFields f other).map (fun p => (objOf p.1, p.2)))
    | other => parseNum other

/-- Parse one or more comma-separated array elements up to `]`. -/
def parseElems : Nat → List Char → Option (List Json × List Char)
  | 0, _ => none
  | Nat.succ f, cs =>
    (parseVal f cs).bind (fun p =>
      match skipWs p.2 with
      | ',' :: r2 => (parseElems f r2).map (fun q => (p.1 :: q.1, q.2))
      | ']' :: r2 => some ([p.1], r2)
      | _ => none)

/-- Parse one or more comma-separated object members up to the closing
brace. -/
def parseFields : Nat → List Char → Option (List (String × Json) × List Char)
  | 0, _ => none
  | Nat.succ f, cs =>
    match skipWs cs with
    | '"' :: rest =>
      (parseStrChars rest).bind (fun pk =>
        match skipWs pk.2 with
        | ':' :: r2 =>
          (parseVal f r2).bind (fun pv =>
            match skipWs pv.2 with
            | ',' :: r4 => (parseFields f r4).map (fun q => ((String.mk pk.1, pv.1) :: q.1, q.2))
            | '\x7d' :: r4 => some ([(String.mk pk.1, pv.1)], r4)
            | _ => none)
        | _ => none)
    | _ => none

end

/-- serde_json::from_str::<Value>: parse the whole string, allowing only
trailing whitespace. -/
def jsonParse (s : String) : Option Json :=
  match parseVal (2 * s.length + 2) s.toList with
  | some (v, r) => if (skipWs r).isEmpty then some v else none
  | none => none

/-! ### Serializer (serde_json::to_string, compact) -/

/-- Lowercase hex digit. -/
def hexDigitChar (n : Nat) : Char :=
  if n < 10 then Char.ofNat (48 + n) else Char.ofNat (87 + n)

/-- serde_json string escaping: quote, backslash, the short control
escapes, and \u00XX for other control characters. -/
def escapeChar (c : Char) : List Char :=
  if c = '"' then ['\\', '"']
  else if c = '\\' then ['\\', '\\']
  else if c = '\x08' then ['\\', 'b']
  else if c = '\x0C' then ['\\', 'f']
  else if c = '\n' then ['\\', 'n']
  else if c = '\r' then ['\\', 'r']
  else if c = '\t' then ['\\', 't']
  else if c.toNat < 32 then ['\\', 'u', '0', '0', hexDigitChar (c.toNat / 16), hexDigitChar (c.toNat % 16)]
  else [c]

/-- Escape a string for inclusion in a JSON document. -/
def escapeString (s : String) : String :=
  String.mk (s.toList.map escapeChar).flatten

mutual

/-- serde_json::to_string: compact serialization, object fields in their
stored (key-sorted) order. -/
def Json.toString : Json → String
  | .null => "null"
  | .bool true => "true"
  | .bool false => "false"
  | .num n => ToString.toString n
  | .str s => "\"" ++ escapeString s ++ "\""
  | .arr xs => "[" ++ arrBody xs ++ "]"
  | .obj fs => "\x7b" ++ objBody fs ++ "\x7d"

/-- Comma-separated serialization of array elements. -/
def arrBody : List Json → String
  | [] => ""
  | [x] => Json.toString x
  | x :: y :: xs => Json.toString x ++ "," ++ arrBody (y :: xs)

/-- Comma-separated serialization of object members. -/
def objBody : List (String × Json) → String
  | [] => ""
  | [(k, v)] => "\"" ++ escapeString k ++ "\":" ++ Json.toString v
  | (k, v) :: f :: fs => "\"" ++ escapeString k ++ "\":" ++ Json.toString v ++ "," ++ objBody (f :: fs)

end

/-! ## Session id parsing (uuid::Uuid::parse_str) -/

/-- Hex digit test. -/
def isHexDigitChar (c : Char) : Bool :=
  (decide ('0' ≤ c) && decide (c ≤ '9')) ||
  (decide ('a' ≤ c) && decide (c ≤ 'f')) ||
  (decide ('A' ≤ c) && decide (c ≤ 'F'))

/-- Canonical hyphenated lowercase rendering of 32 hex digits. -/
def uuidCanonical (cs : List Char) : String :=
  String.mk (cs.take 8 ++ '-' :: ((cs.drop 8).take 4) ++ '-' :: ((cs.drop 12).take 4)
    ++ '-' :: ((cs.drop 16).take 4) ++ '-' :: cs.drop 20)

/-- Modelled from the uuid crate (an external collaborator, not under
src/): Uuid::parse_str accepting the hyphenated 8-4-4-4-12 format and
the simple 32-hex-digit format, returning the canonical value.  The
braced and urn forms the crate also accepts are not exercised by any
claim and are outside the model. -/
def uuidParse (s : String) : Option String :=
  let cs := s.toList
  if cs.length = 36 then
    if (List.range 36).all (fun i =>
        if i = 8 ∨ i = 13 ∨ i = 18 ∨ i = 23 then cs.getD i ' ' == '-'
        else isHexDigitChar (cs.getD i ' ')) then
      some (uuidCanonical ((cs.filter (fun c => c != '-')).map Char.toLower))
    else none
  else if cs.length = 32 then
    if cs.all isHexDigitChar then some (uuidCanonical (cs.map Char.toLower)) else none
  else none

/-! ## Gateway data model -/

/-- Message classification used by the WebSocket handler; the SSE
handler has no `unknown` case (its classifier below is total). -/
inductive MsgType where
  | progress
  | complete
  | error
deriving DecidableEq

/-- String rendered into the forwarded envelope for each kind. -/
def typeName : MsgType → String
  | .progress => "progress"
  | .complete => "complete"
  | .error => "error"

/-- Database write attempts the gateway can make (db.rs): cdnUrl is
update_mix_cdn_url, status is update_mix_status, errMsg is
update_mix_error; each is keyed by the parsed session uuid. -/
inductive DbWrite where
  | cdnUrl (sessionUuid url : String)
  | status (sessionUuid st : String)
  | errMsg (sessionUuid msg : String)
deriving DecidableEq

/-- Observable actions of a gateway connection: a transport send of a
text payload (WebSocket Message::Text or SSE event data), or an
attempted database write together with the outcome the store returned
(the source logs the outcome and otherwise ignores it). -/
inductive GwAction where
  | send (text : String)
  | dbWrite (w : DbWrite) (ok : Bool)
deriving DecidableEq

/-- How a gateway loop ended: `closed` models `break` (and a bus stream
that ends), `earlyReturn` models the `return` statements that abandon
the handler. -/
inductive LoopExit where
  | closed
  | earlyReturn
deriving DecidableEq

/-- One message delivered by the bus subscription. -/
structure BusMsg where
  channel : String
  payload : String
deriving DecidableEq

/-- Transport sends visible to the client, extracted from a trace. -/
def clientView (acts : List GwAction) : List String :=
  acts.filterMap (fun a => match a with | .send s => some s | _ => none)

/-- Test for database actions in a trace. -/
def isDbAction : GwAction → Bool
  | .dbWrite _ _ => true
  | _ => false

/-! ## WebSocket handler (handle_mix_socket, main.rs lines 35-249) -/

/-- Channel classification of the WebSocket loop (lines 124-133):
ends_with checks for :complete, then :error, then :progress; anything
else is unknown (`none`) and the message is dropped. -/
def wsClassify (channel : String) : Option MsgType :=
  if endsWithStr channel (":complete") then some .complete
  else if endsWithStr channel (":error") then some .error
  else if endsWithStr channel (":progress") then some .progress
  else none

/-- Envelope text forwarded to the WebSocket client (lines 185-199):
parse the payload; on success wrap it as json!({type, data}); on
failure wrap json!({type, data: {raw: payload}}). -/
def wsEnvelope (t : MsgType) (payload : String) : String :=
  match jsonParse payload with
  | some data => Json.toString (objOf [(("type"), Json.str (typeName t)), (("data"), data)])
  | none =>
    Json.toString (objOf [(("type"), Json.str (typeName t)),
      (("data"), objOf [(("raw"), Json.str payload)])])

/-- Error message extracted for update_mix_error (lines 172-176):
dat.get("error").and_then(as_str) with default "Unknown error", also
when the payload is not JSON. -/
def wsErrorMessage (payload : String) : String :=
  match jsonParse payload with
  | some data => (getStr data ("error")).getD ("Unknown error")
  | none => "Unknown error"

/-- Persistence performed for a complete-classified message (lines
138-161): only when the payload parses as JSON; inside that branch an
unparsable session id aborts the whole handler (`return`); otherwise
update_mix_cdn_url when data.cdn_url is a string, then
update_mix_status "completed". -/
def wsCompleteDbActions (sessionId : String) (dbOk : DbWrite → Bool) (payload : String) :
    List GwAction × Option LoopExit :=
  match jsonParse payload with
  | some data =>
    match uuidParse sessionId with
    | none => ([], some .earlyReturn)
    | some u =>
      let cdnActs : List GwAction :=
        match getStr data ("cdn_url") with
        | some url => [GwAction.dbWrite (.cdnUrl u url) (dbOk (.cdnUrl u url))]
        | none => []
      (cdnActs ++ [GwAction.dbWrite (.status u ("completed")) (dbOk (.status u ("completed")))], none)
  | none => ([], none)

/-- Persistence performed for an error-classified message (lines
162-181): an unparsable session id aborts the handler; otherwise
update_mix_error with the extracted message. -/
def wsErrorDbActions (sessionId : String) (dbOk : DbWrite → Bool) (payload : String) :
    List GwAction × Option LoopExit :=
  match uuidParse sessionId with
  | none => ([], some .earlyReturn)
  | some u =>
    ([GwAction.dbWrite (.errMsg u (wsErrorMessage payload)) (dbOk (.errMsg u (wsErrorMessage payload)))],
      none)

/-- Processing of one delivered bus message by the WebSocket loop body
(lines 108-208): classify (dropping unknown), persist for terminal
kinds, forward the envelope, and break after a terminal forward. -/
def wsProcessMsg (sessionId : String) (dbOk : DbWrite → Bool) (m : BusMsg) :
    List GwAction × Option LoopExit :=
  match wsClassify m.channel with
  | none => ([], none)
  | some t =>
    let db : List GwAction × Option LoopExit :=
      match t with
      | .complete => wsCompleteDbActions sessionId dbOk m.payload
      | .error => wsErrorDbActions sessionId dbOk m.payload
      | .progress => ([], none)
    match db.2 with
    | some e => (db.1, some e)
    | none =>
      let acts := db.1 ++ [GwAction.send (wsEnvelope t m.payload)]
      match t with
      | .progress => (acts, none)
      | _ => (acts, some .closed)

/-- The WebSocket loop over the messages delivered by the subscription;
an exhausted stream is `None` from pubsub_stream.next(), which breaks
the loop. -/
def wsRun (sessionId : String) (dbOk : DbWrite → Bool) : List BusMsg → List GwAction × Option LoopExit
  | [] => ([], some .closed)
  | m :: ms =>
    let pr := wsProcessMsg sessionId dbOk m
    match pr.2 with
    | none =>
      let rest := wsRun sessionId dbOk ms
      (pr.1 ++ rest.1, rest.2)
    | some e => (pr.1, some e)

/-- Initial confirmation sent on line 91-93:
format!("{{\"type\": \"connected\", \"session_id\": \"{}\"}}", session_id). -/
def wsConnectedMsg (sessionId : String) : String :=
  "\x7b\"type\": \"connected\", \"session_id\": \"" ++ sessionId ++ "\"\x7d"

/-- Failure report of Database::new (lines 43-45). -/
def wsDbFailMsg (e : String) : String :=
  "\x7b\"error\": \"Database connection failed: " ++ e ++ "\"\x7d"

/-- Failure report of redis::Client::open (lines 58-60). -/
def wsRedisFailMsg (e : String) : String :=
  "\x7b\"error\": \"Failed to connect to progress stream: " ++ e ++ "\"\x7d"

/-- Failure report of get_async_pubsub (lines 69-71). -/
def wsPubsubFailMsg (e : String) : String :=
  "\x7b\"error\": \"Failed to subscribe to progress: " ++ e ++ "\"\x7d"

/-- Outcome of the setup phase preceding the WebSocket loop: database
connection, redis client open, pubsub acquisition, and finally
psubscribe, whose failure is only logged (lines 84-86) and does not
stop the handler. -/
inductive WsSetup where
  | dbFail (e : String)
  | redisFail (e : String)
  | pubsubFail (e : String)
  | ok (psubscribeOk : Bool)

/-- The whole WebSocket handler: setup failures each send a single
{"error": ...} text and return; otherwise the connected confirmation is
sent and the loop runs over the delivered messages. -/
def wsHandler (sessionId : String) (setup : WsSetup) (dbOk : DbWrite → Bool)
    (msgs : List BusMsg) : List GwAction × Option LoopExit :=
  match setup with
  | .dbFail e => ([GwAction.send (wsDbFailMsg e)], some .earlyReturn)
  | .redisFail e => ([GwAction.send (wsRedisFailMsg e)], some .earlyReturn)
  | .pubsubFail e => ([GwAction.send (wsPubsubFailMsg e)], some .earlyReturn)
  | .ok _ =>
    let body := wsRun sessionId dbOk msgs
    (GwAction.send (wsConnectedMsg sessionId) :: body.1, body.2)

/-- The WebSocket handler subscribes with the single wildcard pattern
"mix:*:*" (line 82-84): which published channels reach its loop. -/
def wsDelivered (channel : String) : Bool :=
  globMatch ("mix:*:*").toList channel.toList

/-- The WebSocket pipeline from the bus: of all published messages, the
loop receives exactly those whose channel matches the wildcard
subscription. -/
def wsFromBus (sessionId : String) (setup : WsSetup) (dbOk : DbWrite → Bool)
    (published : List BusMsg) : List GwAction × Option LoopExit :=
  wsHandler sessionId setup dbOk (published.filter (fun m => wsDelivered m.channel))

/-! ## SSE handler (sse_mix_handler, main.rs lines 252-322) -/

/-- Channel classification of the SSE loop (lines 303-309): substring
containment checks for :complete then :error, with progress as the
default; there is no unknown case and nothing is dropped. -/
def sseClassify (channel : String) : MsgType :=
  if occursIn channel (":complete") then .complete
  else if occursIn channel (":error") then .error
  else .progress

/-- Event text forwarded to the SSE client (lines 311-313): the payload
is interpolated verbatim, with no parse and no wrapping:
format!("{{\"type\": \"{}\", \"data\": {}}}", message_type, payload). -/
def sseEnvelope (t : MsgType) (payload : String) : String :=
  "\x7b\"type\": \"" ++ typeName t ++ "\", \"data\": " ++ payload ++ "\x7d"

/-- Initial confirmation of the SSE stream (lines 290-292), same shape
as the WebSocket one. -/
def sseConnectedMsg (sessionId : String) : String :=
  "\x7b\"type\": \"connected\", \"session_id\": \"" ++ sessionId ++ "\"\x7d"

/-- Failure report of redis::Client::open in the SSE stream (lines
265-267). -/
def sseRedisFailMsg (e : String) : String :=
  "\x7b\"error\": \"Redis connection failed: " ++ e ++ "\"\x7d"

/-- Failure report of get_async_pubsub in the SSE stream (lines
275-277). -/
def ssePubsubFailMsg (e : String) : String :=
  "\x7b\"error\": \"Pubsub failed: " ++ e ++ "\"\x7d"

/-- Outcome of the SSE setup phase; the three subscribe calls ignore
their results entirely (lines 286-288), so they do not appear. -/
inductive SseSetup where
  | redisFail (e : String)
  | pubsubFail (e : String)
  | ok

/-- Processing of one delivered bus message by the SSE loop body (lines
296-318): classify, forward the event, and stop the stream after a
terminal kind; there are no database writes anywhere in this handler. -/
def sseProcessMsg (m : BusMsg) : List GwAction × Option LoopExit :=
  let t := sseClassify m.channel
  ([GwAction.send (sseEnvelope t m.payload)],
    match t with
    | .progress => none
    | _ => some .closed)

/-- The SSE loop over delivered messages. -/
def sseRun : List BusMsg → List GwAction × Option LoopExit
  | [] => ([], some .closed)
  | m :: ms =>
    let pr := sseProcessMsg m
    match pr.2 with
    | none =>
      let rest := sseRun ms
      (pr.1 ++ rest.1, rest.2)
    | some e => (pr.1, some e)

/-- The whole SSE handler stream. -/
def sseHandler (sessionId : String) (setup : SseSetup) (msgs : List BusMsg) :
    List GwAction × Option LoopExit :=
  match setup with
  | .redisFail e => ([GwAction.send (sseRedisFailMsg e)], some .earlyReturn)
  | .pubsubFail e => ([GwAction.send (ssePubsubFailMsg e)], some .earlyReturn)
  | .ok =>
    let body := sseRun msgs
    (GwAction.send (sseConnectedMsg sessionId) :: body.1, body.2)

/-- The three exact channels the SSE handler subscribes to (lines
282-288); only messages published on these reach its loop. -/
def sseChannels (sessionId : String) : List String :=
  ["mix:" ++ sessionId ++ ":progress",
   "mix:" ++ sessionId ++ ":complete",
   "mix:" ++ sessionId ++ ":error"]

/-- Membership of a channel in the SSE subscription set. -/
def sseDelivered (sessionId channel : String) : Bool :=
  (sseChannels sessionId).contains channel

/-! ## Durable store (db.rs): dj_mix_sessions rows and the terminal
write operations -/

/-- The columns of dj_mix_sessions touched by the gateway queries in
db.rs, plus identity and creation data. -/
structure MixSessionRow where
  prompt : String
  status : String
  createdAt : Nat
  completedAt : Option Nat
  errorMessage : Option String
  cdnUrl : Option String
deriving DecidableEq

/-- The store: a partial map from session uuid to its row.  An UPDATE
whose WHERE clause matches no row is a successful no-op, as in SQL. -/
def Db : Type := String → Option MixSessionRow

/-- db.rs update_mix_error (lines 102-114): UPDATE dj_mix_sessions SET
status = 'error', error_message = $m, completed_at = $now WHERE id =
$id.  The argument now models the Utc::now() reading taken inside this
invocation (db.rs line 108): each call stamps its own clock reading, so
two successive invocations generally pass two different values. -/
def update_mix_error (db : Db) (id msg : String) (now : Nat) : Db :=
  fun k => if k = id then
    (db k).map (fun r => { r with status := "error", errorMessage := some msg, completedAt := some now })
  else db k

/-- db.rs update_mix_cdn_url (lines 116-126): UPDATE dj_mix_sessions
SET cdn_url = $u WHERE id = $id. -/
def update_mix_cdn_url (db : Db) (id url : String) : Db :=
  fun k => if k = id then
    (db k).map (fun r => { r with cdnUrl := some url })
  else db k

/-- db.rs update_mix_status (lines 128-139): UPDATE dj_mix_sessions SET
status = $s, completed_at = $now WHERE id = $id.  The argument now
models the Utc::now() reading taken inside this invocation (db.rs line
133): each call stamps its own clock reading, so two successive
invocations generally pass two different values. -/
def update_mix_status (db : Db) (id st : String) (now : Nat) : Db :=
  fun k => if k = id then
    (db k).map (fun r => { r with status := st, completedAt := some now })
  else db k

/-! ## Helper lemmas: suffix tests and glob matching -/

theorem headMatches_append (p r : List Char) : headMatches p (p ++ r) = true := by
  induction p with
  | nil => rfl
  | cons a ps ih => simp [headMatches, ih]

theorem headMatches_iff (p s : List Char) : headMatches p s = true ↔ ∃ r, s = p ++ r := by
  induction p generalizing s with
  | nil => simp [headMatches]
  | cons a ps ih =>
    cases s with
    | nil => simp [headMatches]
    | cons c cs =>
      simp only [headMatches, Bool.and_eq_true, beq_iff_eq, ih, List.cons_append,
        List.cons.injEq]
      constructor
      · rintro ⟨rfl, r, rfl⟩
        exact ⟨r, rfl, rfl⟩
      · rintro ⟨r, rfl, rfl⟩
        exact ⟨rfl, r, rfl⟩

theorem string_data_append (a b : String) : (a ++ b).toList = a.toList ++ b.toList := by
  cases a
  cases b
  rfl

theorem endsWithStr_append (a b : String) : endsWithStr (a ++ b) b = true := by
  unfold endsWithStr
  rw [string_data_append, List.reverse_append]
  exact headMatches_append _ _

theorem not_ends_complete_of_ends_error {ch : String}
    (h : endsWithStr ch (":error") = true) : endsWithStr ch (":complete") = false := by
  unfold endsWithStr at h ⊢
  obtain ⟨r, hr⟩ := (headMatches_iff _ _).1 h
  rw [show ((":error").toList.reverse : List Char) = [':', 'e', 'r', 'r', 'o', 'r'].reverse from rfl] at hr
  rw [hr]
  rfl

theorem not_ends_complete_of_ends_progress {ch : String}
    (h : endsWithStr ch (":progress") = true) : endsWithStr ch (":complete") = false := by
  unfold endsWithStr at h ⊢
  obtain ⟨r, hr⟩ := (headMatches_iff _ _).1 h
  rw [show ((":progress").toList.reverse : List Char)
      = [':', 'p', 'r', 'o', 'g', 'r', 'e', 's', 's'].reverse from rfl] at hr
  rw [hr]
  rfl

theorem not_ends_error_of_ends_progress {ch : String}
    (h : endsWithStr ch (":progress") = true) : endsWithStr ch (":error") = false := by
  unfold endsWithStr at h ⊢
  obtain ⟨r, hr⟩ := (headMatches_iff _ _).1 h
  rw [show ((":progress").toList.reverse : List Char)
      = [':', 'p', 'r', 'o', 'g', 'r', 'e', 's', 's'].reverse from rfl] at hr
  rw [hr]
  rfl

theorem wsClassify_of_ends_complete {ch : String}
    (h : endsWithStr ch (":complete") = true) : wsClassify ch = some MsgType.complete := by
  simp [wsClassify, h]

theorem wsClassify_of_ends_error {ch : String}
    (h : endsWithStr ch (":error") = true) : wsClassify ch = some MsgType.error := by
  simp [wsClassify, h, not_ends_complete_of_ends_error h]

theorem wsClassify_of_ends_progress {ch : String}
    (h : endsWithStr ch (":progress") = true) : wsClassify ch = some MsgType.progress := by
  simp [wsClassify, h, not_ends_complete_of_ends_progress h, not_ends_error_of_ends_progress h]

theorem globMatch_star_iff (ps s : List Char) :
    globMatch ('*' :: ps) s = true ↔ ∃ n, n ≤ s.length ∧ globMatch ps (s.drop n) = true := by
  show (List.range (s.length + 1)).any (fun n => globMatch ps (s.drop n)) = true ↔ _
  rw [List.any_eq_true]
  constructor
  · rintro ⟨n, hn, hg⟩
    exact ⟨n, by simpa [Nat.lt_succ_iff] using List.mem_range.1 hn, hg⟩
  · rintro ⟨n, hn, hg⟩
    exact ⟨n, List.mem_range.2 (Nat.lt_succ_of_le hn), hg⟩

theorem globMatch_star_any (s : List Char) : globMatch ['*'] s = true := by
  rw [globMatch_star_iff]
  refine ⟨s.length, le_refl _, ?_⟩
  simp [globMatch]

theorem globMatch_star_append (ps t s : List Char)
    (h : globMatch ('*' :: ps) s = true) : globMatch ('*' :: ps) (t ++ s) = true := by
  rw [globMatch_star_iff] at h ⊢
  obtain ⟨n, hn, hg⟩ := h
  refine ⟨t.length + n, ?_, ?_⟩
  · simp only [List.length_append]
    omega
  · rw [← List.drop_drop, List.drop_left]
    exact hg

theorem wsDelivered_mix (T sfx : String) :
    wsDelivered ("mix:" ++ T ++ (":" ++ sfx)) = true := by
  unfold wsDelivered
  have h2 : ("mix:" ++ T ++ (":" ++ sfx)).toList
      = ['m', 'i', 'x', ':'] ++ (T.toList ++ (':' :: sfx.toList)) := by
    cases T
    cases sfx
    rfl
  rw [show (("mix:*:*").toList : List Char) = ['m', 'i', 'x', ':', '*', ':', '*'] from rfl, h2]
  simp only [List.cons_append, List.nil_append]
  show globMatch ['*', ':', '*'] (T.toList ++ (':' :: sfx.toList)) = true
  apply globMatch_star_append
  rw [globMatch_star_iff]
  refine ⟨0, Nat.zero_le _, ?_⟩
  rw [List.drop_zero]
  show ((':' == ':') && globMatch ['*'] sfx.toList) = true
  rw [globMatch_star_any]
  rfl

/-! ## Helper lemmas: one-message processing of the WebSocket loop -/

theorem wsProcessMsg_unknown (sid : String) (dbOk : DbWrite → Bool) (ch p : String)
    (h : wsClassify ch = none) : wsProcessMsg sid dbOk ⟨ch, p⟩ = ([], none) := by
  simp [wsProcessMsg, h]

theorem wsProcessMsg_progress (sid : String) (dbOk : DbWrite → Bool) (ch p : String)
    (h : wsClassify ch = some MsgType.progress) :
    wsProcessMsg sid dbOk ⟨ch, p⟩ = ([GwAction.send (wsEnvelope MsgType.progress p)], none) := by
  simp [wsProcessMsg, h]

theorem wsProcessMsg_complete_cdn (sid u ch p url : String) (dbOk : DbWrite → Bool) (d : Json)
    (hc : wsClassify ch = some MsgType.complete) (hu : uuidParse sid = some u)
    (hp : jsonParse p = some d) (hurl : getStr d ("cdn_url") = some url) :
    wsProcessMsg sid dbOk ⟨ch, p⟩ =
      ([GwAction.dbWrite (DbWrite.cdnUrl u url) (dbOk (DbWrite.cdnUrl u url)),
        GwAction.dbWrite (DbWrite.status u ("completed")) (dbOk (DbWrite.status u ("completed"))),
        GwAction.send (wsEnvelope MsgType.complete p)], some LoopExit.closed) := by
  simp [wsProcessMsg, hc, wsCompleteDbActions, hp, hu, hurl]

theorem wsProcessMsg_complete_nocdn (sid u ch p : String) (dbOk : DbWrite → Bool) (d : Json)
    (hc : wsClassify ch = some MsgType.complete) (hu : uuidParse sid = some u)
    (hp : jsonParse p = some d) (hurl : getStr d ("cdn_url") = none) :
    wsProcessMsg sid dbOk ⟨ch, p⟩ =
      ([GwAction.dbWrite (DbWrite.status u ("completed")) (dbOk (DbWrite.status u ("completed"))),
        GwAction.send (wsEnvelope MsgType.complete p)], some LoopExit.closed) := by
  simp [wsProcessMsg, hc, wsCompleteDbActions, hp, hu, hurl]

theorem wsProcessMsg_complete_noparse (sid ch p : String) (dbOk : DbWrite → Bool)
    (hc : wsClassify ch = some MsgType.complete) (hp : jsonParse p = none) :
    wsProcessMsg sid dbOk ⟨ch, p⟩ =
      ([GwAction.send (wsEnvelope MsgType.complete p)], some LoopExit.closed) := by
  simp [wsProcessMsg, hc, wsCompleteDbActions, hp]

theorem wsProcessMsg_complete_baduuid (sid ch p : String) (dbOk : DbWrite → Bool) (d : Json)
    (hc : wsClassify ch = some MsgType.complete) (hp : jsonParse p = some d)
    (hu : uuidParse sid = none) :
    wsProcessMsg sid dbOk ⟨ch, p⟩ = ([], some LoopExit.earlyReturn) := by
  simp [wsProcessMsg, hc, wsCompleteDbActions, hp, hu]

theorem wsProcessMsg_error_ok (sid u ch p : String) (dbOk : DbWrite → Bool)
    (hc : wsClassify ch = some MsgType.error) (hu : uuidParse sid = some u) :
    wsProcessMsg sid dbOk ⟨ch, p⟩ =
      ([GwAction.dbWrite (DbWrite.errMsg u (wsErrorMessage p)) (dbOk (DbWrite.errMsg u (wsErrorMessage p))),
        GwAction.send (wsEnvelope MsgType.error p)], some LoopExit.closed) := by
  simp [wsProcessMsg, hc, wsErrorDbActions, hu]

theorem wsProcessMsg_error_baduuid (sid ch p : String) (dbOk : DbWrite → Bool)
    (hc : wsClassify ch = some MsgType.error) (hu : uuidParse sid = none) :
    wsProcessMsg sid dbOk ⟨ch, p⟩ = ([], some LoopExit.earlyReturn) := by
  simp [wsProcessMsg, hc, wsErrorDbActions, hu]

theorem wsRun_cons_continue (sid : String) (dbOk : DbWrite → Bool) (m : BusMsg) (ms : List BusMsg)
    (h : (wsProcessMsg sid dbOk m).2 = none) :
    wsRun sid dbOk (m :: ms)
      = ((wsProcessMsg sid dbOk m).1 ++ (wsRun sid dbOk ms).1, (wsRun sid dbOk ms).2) := by
  simp only [wsRun]
  rw [h]

theorem wsRun_cons_exit (sid : String) (dbOk : DbWrite → Bool) (m : BusMsg) (ms : List BusMsg)
    (e : LoopExit) (h : (wsProcessMsg sid dbOk m).2 = some e) :
    wsRun sid dbOk (m :: ms) = ((wsProcessMsg sid dbOk m).1, some e) := by
  simp only [wsRun]
  rw [h]

theorem clientView_append (a b : List GwAction) :
    clientView (a ++ b) = clientView a ++ clientView b := by
  simp [clientView]

/-! ## Helper lemmas: the client view does not depend on write outcomes -/

theorem wsProcessMsg_oracle (sid : String) (f g : DbWrite → Bool) (m : BusMsg) :
    clientView (wsProcessMsg sid f m).1 = clientView (wsProcessMsg sid g m).1
      ∧ (wsProcessMsg sid f m).2 = (wsProcessMsg sid g m).2 := by
  obtain ⟨ch, p⟩ := m
  cases hc : wsClassify ch with
  | none => simp [wsProcessMsg_unknown _ _ _ _ hc]
  | some t =>
    cases t with
    | progress => simp [wsProcessMsg_progress _ _ _ _ hc]
    | complete =>
      cases hp : jsonParse p with
      | none => simp [wsProcessMsg_complete_noparse _ _ _ _ hc hp]
      | some d =>
        cases hu : uuidParse sid with
        | none => simp [wsProcessMsg_complete_baduuid _ _ _ _ _ hc hp hu]
        | some u =>
          cases hurl : getStr d ("cdn_url") with
          | none =>
            simp [wsProcessMsg_complete_nocdn _ _ _ _ _ _ hc hu hp hurl, clientView]
          | some url =>
            simp [wsProcessMsg_complete_cdn _ _ _ _ _ _ _ hc hu hp hurl, clientView]
    | error =>
      cases hu : uuidParse sid with
      | none => simp [wsProcessMsg_error_baduuid _ _ _ _ hc hu]
      | some u => simp [wsProcessMsg_error_ok _ _ _ _ _ hc hu, clientView]

theorem wsRun_oracle (sid : String) (f g : DbWrite → Bool) (msgs : List BusMsg) :
    clientView (wsRun sid f msgs).1 = clientView (wsRun sid g msgs).1
      ∧ (wsRun sid f msgs).2 = (wsRun sid g msgs).2 := by
  induction msgs with
  | nil => simp [wsRun]
  | cons m ms ih =>
    obtain ⟨hv, he⟩ := wsProcessMsg_oracle sid f g m
    cases h2 : (wsProcessMsg sid g m).2 with
    | none =>
      have h1 : (wsProcessMsg sid f m).2 = none := he.trans h2
      rw [wsRun_cons_continue sid f m ms h1, wsRun_cons_continue sid g m ms h2]
      simp only [clientView_append]
      exact ⟨by rw [hv, ih.1], ih.2⟩
    | some e =>
      have h1 : (wsProcessMsg sid f m).2 = some e := he.trans h2
      rw [wsRun_cons_exit sid f m ms e h1, wsRun_cons_exit sid g m ms e h2]
      exact ⟨hv, rfl⟩

/-! ## Helper lemmas: the SSE handler performs no persistence writes -/

theorem sseRun_no_db (msgs : List BusMsg) : ((sseRun msgs).1.filter isDbAction) = [] := by
  induction msgs with
  | nil => rfl
  | cons m ms ih =>
    cases h : (sseProcessMsg m).2 with
    | none =>
      simp only [sseRun]
      rw [h]
      simp [List.filter_append, ih, sseProcessMsg, isDbAction]
    | some e =>
      simp only [sseRun]
      rw [h]
      simp [sseProcessMsg, isDbAction]

theorem sseHandler_no_db (sid : String) (msgs : List BusMsg) :
    ((sseHandler sid SseSetup.ok msgs).1.filter isDbAction) = [] := by
  simp [sseHandler, isDbAction, sseRun_no_db]

/-! ## Claims -/

/-- Claim C10 counterexample: update_mix_status and update_mix_error
call Utc::now() inside each invocation, so invoking either twice with
the same (sessionId, kind, data) — the two calls reading the clock at 1
and then at 2 — re-stamps completed_at: the stored row after the
duplicate write differs from the row after a single write, so the store
is not left in the same observable state. -/
theorem C10_counterexample :
    (update_mix_status
        (update_mix_status
          (fun k => if k = ("i") then some ⟨"p", "generating", 0, none, none, none⟩ else none)
          ("i") ("completed") 1)
        ("i") ("completed") 2) ("i")
      = some ⟨"p", "completed", 0, some 2, none, none⟩
    ∧ (update_mix_status
        (fun k => if k = ("i") then some ⟨"p", "generating", 0, none, none, none⟩ else none)
        ("i") ("completed") 1) ("i")
      = some ⟨"p", "completed", 0, some 1, none, none⟩
    ∧ some (⟨"p", "completed", 0, some 2, none, none⟩ : MixSessionRow)
      ≠ some (⟨"p", "completed", 0, some 1, none, none⟩ : MixSessionRow)
    ∧ (update_mix_error
        (update_mix_error
          (fun k => if k = ("i") then some ⟨"p", "generating", 0, none, none, none⟩ else none)
          ("i") ("m") 1)
        ("i") ("m") 2) ("i")
      = some ⟨"p", "error", 0, some 2, some ("m"), none⟩
    ∧ (update_mix_error
        (fun k => if k = ("i") then some ⟨"p", "generating", 0, none, none, none⟩ else none)
        ("i") ("m") 1) ("i")
      = some ⟨"p", "error", 0, some 1, some ("m"), none⟩
    ∧ some (⟨"p", "error", 0, some 2, some ("m"), none⟩ : MixSessionRow)
      ≠ some (⟨"p", "error", 0, some 1, some ("m"), none⟩ : MixSessionRow) := by
  exact ⟨rfl, rfl, by decide, rfl, rfl, by decide⟩

/-- Claim C10 amended: the result-location update is idempotent —
running update_mix_cdn_url twice with the same arguments equals running
it once.  The status and error updates are not: each invocation stamps
completed_at with its own internal Utc::now() reading, so a duplicate
invocation with the same (sessionId, kind, data) leaves the store equal
to a single write performed at the second clock reading — every column
other than completed_at (status, error_message, prompt, created_at,
cdn_url) is unchanged by the duplicate, and only the completed_at stamp
moves to the later reading. -/
theorem C10_terminal_writes_rewrite (db : Db) (id url msg st : String) (t1 t2 : Nat) :
    update_mix_cdn_url (update_mix_cdn_url db id url) id url = update_mix_cdn_url db id url
    ∧ update_mix_status (update_mix_status db id st t1) id st t2 = update_mix_status db id st t2
    ∧ update_mix_error (update_mix_error db id msg t1) id msg t2 = update_mix_error db id msg t2
    ∧ (∀ k, ((update_mix_status (update_mix_status db id st t1) id st t2) k).map
          (fun r => (r.prompt, r.status, r.createdAt, r.errorMessage, r.cdnUrl))
        = ((update_mix_status db id st t1) k).map
          (fun r => (r.prompt, r.status, r.createdAt, r.errorMessage, r.cdnUrl)))
    ∧ (∀ k, ((update_mix_error (update_mix_error db id msg t1) id msg t2) k).map
          (fun r => (r.prompt, r.status, r.createdAt, r.errorMessage, r.cdnUrl))
        = ((update_mix_error db id msg t1) k).map
          (fun r => (r.prompt, r.status, r.createdAt, r.errorMessage, r.cdnUrl))) := by
  refine ⟨?_, ?_, ?_, ?_, ?_⟩
  · funext k
    simp only [update_mix_cdn_url]
    by_cases h : k = id
    · simp only [if_pos h]
      cases db k with
      | none => rfl
      | some r => rfl
    · simp only [if_neg h]
  · funext k
    simp only [update_mix_status]
    by_cases h : k = id
    · simp only [if_pos h]
      cases db k with
      | none => rfl
      | some r => rfl
    · simp only [if_neg h]
  · funext k
    simp only [update_mix_error]
    by_cases h : k = id
    · simp only [if_pos h]
      cases db k with
      | none => rfl
      | some r => rfl
    · simp only [if_neg h]
  · intro k
    simp only [update_mix_status]
    by_cases h : k = id
    · simp only [if_pos h]
      cases db k with
      | none => rfl
      | some r => rfl
    · simp only [if_neg h]
  · intro k
    simp only [update_mix_error]
    by_cases h : k = id
    · simp only [if_pos h]
      cases db k with
      | none => rfl
      | some r => rfl
    · simp only [if_neg h]

/-- Claim C8: persistence failures are swallowed by the WebSocket loop:
under any two stores (modelled as write-outcome oracles, in particular
an always-failing one against an always-succeeding one) the
client-visible message sequence and the way the loop ends are
identical, so a failed status, result-location or error write never
prevents the terminal envelope from reaching the client. -/
theorem C8_write_failure_isolated (sid : String) (b : Bool) (f g : DbWrite → Bool)
    (msgs : List BusMsg) :
    clientView (wsHandler sid (WsSetup.ok b) f msgs).1
        = clientView (wsHandler sid (WsSetup.ok b) g msgs).1
      ∧ (wsHandler sid (WsSetup.ok b) f msgs).2 = (wsHandler sid (WsSetup.ok b) g msgs).2 := by
  obtain ⟨hv, he⟩ := wsRun_oracle sid f g msgs
  constructor
  · simp only [wsHandler, clientView, List.filterMap_cons]
    simp only [clientView] at hv
    rw [hv]
  · simpa only [wsHandler] using he

/-- Claim C5 counterexample: a psubscribe failure is not reported and
does not close the WebSocket connection — the handler still sends the
connected confirmation and proceeds exactly as if subscribed; and the
report sent on a bus connect failure is a bare {"error": ...} object
carrying no "type" field, hence not an error-typed envelope. -/
theorem C5_counterexample :
    wsHandler ("s") (WsSetup.ok false) (fun _ => true) []
        = ([GwAction.send (wsConnectedMsg ("s"))], some LoopExit.closed)
      ∧ (jsonParse (wsRedisFailMsg ("boom"))).bind (fun j => j.getField ("type")) = none := by
  exact ⟨rfl, rfl⟩

/-- Claim C5 amended: a redis client-open or pubsub-acquisition failure
is reported to the client as a single {"error": <message>} text (with
no type field) after which the handler returns without retrying, in
both adapters; but a subscribe failure is only logged in the WebSocket
handler — the connection proceeds identically to a successful
subscription — and the SSE handler ignores its subscribe results
entirely. -/
theorem C5_failure_reporting (sid e : String) (dbOk : DbWrite → Bool) (msgs : List BusMsg) :
    wsHandler sid (WsSetup.redisFail e) dbOk msgs
        = ([GwAction.send (wsRedisFailMsg e)], some LoopExit.earlyReturn)
      ∧ wsHandler sid (WsSetup.pubsubFail e) dbOk msgs
        = ([GwAction.send (wsPubsubFailMsg e)], some LoopExit.earlyReturn)
      ∧ wsHandler sid (WsSetup.ok false) dbOk msgs = wsHandler sid (WsSetup.ok true) dbOk msgs
      ∧ sseHandler sid (SseSetup.redisFail e) msgs
        = ([GwAction.send (sseRedisFailMsg e)], some LoopExit.earlyReturn)
      ∧ sseHandler sid (SseSetup.pubsubFail e) msgs
        = ([GwAction.send (ssePubsubFailMsg e)], some LoopExit.earlyReturn) := by
  exact ⟨rfl, rfl, rfl, rfl, rfl⟩

/-- Claim C1 counterexample: the unidirectional (SSE) adapter forwards a
payload that is not valid JSON by interpolating it verbatim: the
delivered event text is not itself valid JSON, so its data field is not
a JSON value and in particular not the {raw: <original string>} wrapper
the claim requires of every transport adapter. -/
theorem C1_counterexample :
    sseHandler ("s1") SseSetup.ok [⟨"mix:s1:progress", "hello"⟩]
        = ([GwAction.send (sseConnectedMsg ("s1")),
            GwAction.send ("\x7b\"type\": \"progress\", \"data\": hello\x7d")], some LoopExit.closed)
      ∧ sseEnvelope MsgType.progress ("hello") = "\x7b\"type\": \"progress\", \"data\": hello\x7d"
      ∧ jsonParse ("\x7b\"type\": \"progress\", \"data\": hello\x7d") = none := by
  exact ⟨rfl, rfl, rfl⟩

/-- Claim C1 amended: in the duplex (WebSocket) adapter the data field
of every forwarded envelope is a valid JSON value: the parsed payload
itself when the payload parses, and exactly the wrapper
{raw: <original string>} when it does not, so normalization never fails
for any input string; the unidirectional adapter instead interpolates
the raw payload verbatim into its event text, with no parse and no
wrapping. -/
theorem C1_ws_normalization_total (t : MsgType) (p : String) :
    (∃ d : Json,
      wsEnvelope t p = Json.toString (objOf [(("type"), Json.str (typeName t)), (("data"), d)])
      ∧ ((jsonParse p = some d) ∨ (jsonParse p = none ∧ d = objOf [(("raw"), Json.str p)])))
    ∧ sseEnvelope t p = "\x7b\"type\": \"" ++ typeName t ++ "\", \"data\": " ++ p ++ "\x7d" := by
  constructor
  · cases hp : jsonParse p with
    | some d =>
      refine ⟨d, ?_, Or.inl rfl⟩
      unfold wsEnvelope
      rw [hp]
    | none =>
      refine ⟨objOf [(("raw"), Json.str p)], ?_, Or.inr ⟨rfl, rfl⟩⟩
      unfold wsEnvelope
      rw [hp]
  · rfl

/-- Claim C2 counterexample: a session id may itself contain
":complete", and then the unidirectional adapter misclassifies that
session's own subscribed progress channel: the channel ends in
":progress" yet is classified complete by the containment test,
forwarded as a complete event, and the stream terminates — it is not
classified by suffix and nothing is ever dropped as unknown. -/
theorem C2_counterexample :
    endsWithStr ("mix:a:complete:progress") (":progress") = true
    ∧ sseClassify ("mix:a:complete:progress") = MsgType.complete
    ∧ sseDelivered ("a:complete") ("mix:a:complete:progress") = true
    ∧ sseHandler ("a:complete") SseSetup.ok [⟨"mix:a:complete:progress", "1"⟩]
        = ([GwAction.send (sseConnectedMsg ("a:complete")),
            GwAction.send ("\x7b\"type\": \"complete\", \"data\": 1\x7d")], some LoopExit.closed) := by
  exact ⟨rfl, rfl, rfl, rfl⟩

/-- Claim C2 amended: in the duplex (WebSocket) adapter classification
is exactly by suffix — for every channel, ending in :progress,
:complete or :error classifies accordingly, and a channel with any
other suffix is unknown: its message produces no forward and no
persistence write in the loop.  The unidirectional adapter instead
classifies by substring containment with progress as the default: every
delivered message is forwarded (nothing is dropped as unknown), and a
channel merely containing ":complete" is classified complete even when
its suffix is ":progress". -/
theorem C2_classification (sid ch chU pU : String) (dbOk : DbWrite → Bool) (m : BusMsg)
    (hU : wsClassify chU = none) :
    (endsWithStr ch (":progress") = true → wsClassify ch = some MsgType.progress)
    ∧ (endsWithStr ch (":complete") = true → wsClassify ch = some MsgType.complete)
    ∧ (endsWithStr ch (":error") = true → wsClassify ch = some MsgType.error)
    ∧ wsProcessMsg sid dbOk ⟨chU, pU⟩ = ([], none)
    ∧ (sseProcessMsg m).1 = [GwAction.send (sseEnvelope (sseClassify m.channel) m.payload)] := by
  exact ⟨fun h => wsClassify_of_ends_progress h,
    fun h => wsClassify_of_ends_complete h,
    fun h => wsClassify_of_ends_error h,
    wsProcessMsg_unknown sid dbOk chU pU hU,
    rfl⟩

/-- Claim C2 witness: the amended classification facts evaluated at a
concrete session channel and at a concrete unknown-suffix channel. -/
theorem C2_classification_witness :
    wsClassify ("mix:s:progress") = some MsgType.progress
    ∧ wsProcessMsg ("s") (fun _ => true) ⟨"mix:s:bogus", "x"⟩ = ([], none) := by
  have h := C2_classification ("s") ("mix:s:progress") ("mix:s:bogus") ("x")
    (fun _ => true) ⟨"c", "p"⟩ rfl
  exact ⟨h.1 rfl, h.2.2.2.1⟩

/-- Claim C3 counterexample: the unidirectional (SSE) adapter performs
no persistence write at all: a client of the SSE stream observes the
complete envelope while the trace contains no database action, so the
corresponding store write was never attempted before (or after) the
terminal envelope was forwarded. -/
theorem C3_counterexample :
    sseHandler ("123e4567-e89b-12d3-a456-426614174000") SseSetup.ok
        [⟨"mix:123e4567-e89b-12d3-a456-426614174000:complete", "\x7b\x7d"⟩]
      = ([GwAction.send (sseConnectedMsg ("123e4567-e89b-12d3-a456-426614174000")),
          GwAction.send ("\x7b\"type\": \"complete\", \"data\": \x7b\x7d\x7d")], some LoopExit.closed)
    ∧ ((sseHandler ("123e4567-e89b-12d3-a456-426614174000") SseSetup.ok
        [⟨"mix:123e4567-e89b-12d3-a456-426614174000:complete", "\x7b\x7d"⟩]).1.filter isDbAction)
      = [] := by
  exact ⟨rfl, rfl⟩

/-- Claim C3 amended: in the duplex adapter, whenever a terminal message
triggers a persistence write, the write attempt strictly precedes the
forwarding of the terminal envelope: for an error message (with a
uuid-parsable session id) the error write comes directly before the
send, and for a complete message whose payload parses as JSON the
status write comes before the send; a complete payload that does not
parse is forwarded with no write attempted at all, and the
unidirectional adapter never attempts any persistence write. -/
theorem C3_write_before_forward (sid u ch p : String) (dbOk : DbWrite → Bool) (d : Json)
    (hu : uuidParse sid = some u) :
    (wsClassify ch = some MsgType.error →
      wsProcessMsg sid dbOk ⟨ch, p⟩ =
        ([GwAction.dbWrite (DbWrite.errMsg u (wsErrorMessage p))
            (dbOk (DbWrite.errMsg u (wsErrorMessage p))),
          GwAction.send (wsEnvelope MsgType.error p)], some LoopExit.closed))
    ∧ (wsClassify ch = some MsgType.complete → jsonParse p = some d →
        ∃ pre, (wsProcessMsg sid dbOk ⟨ch, p⟩).1
            = pre ++ [GwAction.send (wsEnvelope MsgType.complete p)]
          ∧ GwAction.dbWrite (DbWrite.status u ("completed"))
              (dbOk (DbWrite.status u ("completed"))) ∈ pre)
    ∧ (wsClassify ch = some MsgType.complete → jsonParse p = none →
        wsProcessMsg sid dbOk ⟨ch, p⟩
          = ([GwAction.send (wsEnvelope MsgType.complete p)], some LoopExit.closed))
    ∧ (∀ msgs : List BusMsg, ((sseHandler sid SseSetup.ok msgs).1.filter isDbAction) = []) := by
  refine ⟨fun hc => wsProcessMsg_error_ok sid u ch p dbOk hc hu,
    fun hc hp => ?_,
    fun hc hp => wsProcessMsg_complete_noparse sid ch p dbOk hc hp,
    fun msgs => sseHandler_no_db sid msgs⟩
  cases hurl : getStr d ("cdn_url") with
  | none =>
    refine ⟨[GwAction.dbWrite (DbWrite.status u ("completed"))
      (dbOk (DbWrite.status u ("completed")))], ?_, List.mem_singleton.2 rfl⟩
    rw [wsProcessMsg_complete_nocdn sid u ch p dbOk d hc hu hp hurl]
    rfl
  | some url =>
    refine ⟨[GwAction.dbWrite (DbWrite.cdnUrl u url) (dbOk (DbWrite.cdnUrl u url)),
      GwAction.dbWrite (DbWrite.status u ("completed"))
        (dbOk (DbWrite.status u ("completed")))], ?_, ?_⟩
    · rw [wsProcessMsg_complete_cdn sid u ch p url dbOk d hc hu hp hurl]
      rfl
    · simp

/-- Claim C3 witness: the error branch of the amended ordering evaluated
at a concrete session and payload. -/
theorem C3_write_before_forward_witness :
    wsProcessMsg ("123e4567-e89b-12d3-a456-426614174000") (fun _ => false)
        ⟨"mix:123e4567-e89b-12d3-a456-426614174000:error", "\x7b\"error\": \"boom\"\x7d"⟩
      = ([GwAction.dbWrite
            (DbWrite.errMsg ("123e4567-e89b-12d3-a456-426614174000")
              (wsErrorMessage ("\x7b\"error\": \"boom\"\x7d"))) false,
          GwAction.send (wsEnvelope MsgType.error ("\x7b\"error\": \"boom\"\x7d"))],
         some LoopExit.closed) := by
  exact (C3_write_before_forward ("123e4567-e89b-12d3-a456-426614174000")
    ("123e4567-e89b-12d3-a456-426614174000")
    ("mix:123e4567-e89b-12d3-a456-426614174000:error") ("\x7b\"error\": \"boom\"\x7d")
    (fun _ => false) Json.null rfl).1 rfl

/-- Claim C6 counterexample: for a complete event whose payload is not
valid JSON, the WebSocket handler attempts no persistence write at all
— in particular the session status is not set to completed — even
though the session id is a valid UUID; the claim's unconditional status
update does not happen. -/
theorem C6_counterexample :
    uuidParse ("123e4567-e89b-12d3-a456-426614174000")
      = some ("123e4567-e89b-12d3-a456-426614174000")
    ∧ wsHandler ("123e4567-e89b-12d3-a456-426614174000") (WsSetup.ok true) (fun _ => true)
        [⟨"mix:123e4567-e89b-12d3-a456-426614174000:complete", "oops"⟩]
      = ([GwAction.send (wsConnectedMsg ("123e4567-e89b-12d3-a456-426614174000")),
          GwAction.send (wsEnvelope MsgType.complete ("oops"))], some LoopExit.closed)
    ∧ ((wsHandler ("123e4567-e89b-12d3-a456-426614174000") (WsSetup.ok true) (fun _ => true)
        [⟨"mix:123e4567-e89b-12d3-a456-426614174000:complete", "oops"⟩]).1.filter isDbAction)
      = [] := by
  exact ⟨rfl, rfl, rfl⟩

/-- Claim C6 amended: for a complete event whose payload parses as JSON
and whose session id parses as a UUID, the sink extracts the optional
cdn_url field, attempts to write it when it is present as a string, and
then attempts the status-completed update (which stamps the completion
time); but when the payload does not parse as JSON no persistence write
is attempted at all — the status update is conditional on the parse,
not unconditional. -/
theorem C6_complete_sink (sid u p q : String) (dbOk : DbWrite → Bool) (d : Json)
    (hu : uuidParse sid = some u) (hp : jsonParse p = some d) :
    (∀ url, getStr d ("cdn_url") = some url →
        wsCompleteDbActions sid dbOk p =
          ([GwAction.dbWrite (DbWrite.cdnUrl u url) (dbOk (DbWrite.cdnUrl u url)),
            GwAction.dbWrite (DbWrite.status u ("completed"))
              (dbOk (DbWrite.status u ("completed")))], none))
    ∧ (getStr d ("cdn_url") = none →
        wsCompleteDbActions sid dbOk p =
          ([GwAction.dbWrite (DbWrite.status u ("completed"))
              (dbOk (DbWrite.status u ("completed")))], none))
    ∧ (jsonParse q = none → wsCompleteDbActions sid dbOk q = ([], none)) := by
  refine ⟨fun url hurl => ?_, fun hurl => ?_, fun hq => ?_⟩ <;>
    simp [wsCompleteDbActions, hp, hu, *]

/-- Claim C6 witness: the amended sink behaviour evaluated at a concrete
session, a payload carrying a cdn_url, and a non-JSON payload. -/
theorem C6_complete_sink_witness :
    wsCompleteDbActions ("123e4567-e89b-12d3-a456-426614174000") (fun _ => true)
        ("\x7b\"cdn_url\": \"u1\"\x7d")
      = ([GwAction.dbWrite
            (DbWrite.cdnUrl ("123e4567-e89b-12d3-a456-426614174000") ("u1")) true,
          GwAction.dbWrite
            (DbWrite.status ("123e4567-e89b-12d3-a456-426614174000") ("completed")) true], none)
    ∧ wsCompleteDbActions ("123e4567-e89b-12d3-a456-426614174000") (fun _ => true) ("oops")
      = ([], none) := by
  have h := C6_complete_sink ("123e4567-e89b-12d3-a456-426614174000")
    ("123e4567-e89b-12d3-a456-426614174000") ("\x7b\"cdn_url\": \"u1\"\x7d") ("oops")
    (fun _ => true) (objOf [(("cdn_url"), Json.str ("u1"))]) rfl rfl
  exact ⟨h.1 ("u1") rfl, h.2.2 rfl⟩

/-- Claim C4: the WebSocket adapter subscribes with the global wildcard
mix:*:* and classifies only by channel suffix, so for a connection
bound to session S every message published for any other session T on
its progress, complete or error channel is delivered and forwarded to
S's client; a complete message for T closes S's connection and triggers
the persistence writes keyed by S's parsed session uuid using T's
payload data. -/
theorem C4_cross_session_leak (S T u payload q url : String) (dbOk : DbWrite → Bool) (d : Json)
    (hu : uuidParse S = some u) (hp : jsonParse payload = some d)
    (hurl : getStr d ("cdn_url") = some url) :
    wsDelivered ("mix:" ++ T ++ ":progress") = true
    ∧ wsDelivered ("mix:" ++ T ++ ":complete") = true
    ∧ wsDelivered ("mix:" ++ T ++ ":error") = true
    ∧ wsFromBus S (WsSetup.ok true) dbOk [⟨"mix:" ++ T ++ ":complete", payload⟩]
        = ([GwAction.send (wsConnectedMsg S),
            GwAction.dbWrite (DbWrite.cdnUrl u url) (dbOk (DbWrite.cdnUrl u url)),
            GwAction.dbWrite (DbWrite.status u ("completed"))
              (dbOk (DbWrite.status u ("completed"))),
            GwAction.send (wsEnvelope MsgType.complete payload)], some LoopExit.closed)
    ∧ (wsFromBus S (WsSetup.ok true) dbOk [⟨"mix:" ++ T ++ ":progress", q⟩]).1
        = [GwAction.send (wsConnectedMsg S), GwAction.send (wsEnvelope MsgType.progress q)] := by
  have hdP : wsDelivered ("mix:" ++ T ++ ":progress") = true := wsDelivered_mix T ("progress")
  have hdC : wsDelivered ("mix:" ++ T ++ ":complete") = true := wsDelivered_mix T ("complete")
  have hdE : wsDelivered ("mix:" ++ T ++ ":error") = true := wsDelivered_mix T ("error")
  have hcC : wsClassify ("mix:" ++ T ++ ":complete") = some MsgType.complete :=
    wsClassify_of_ends_complete (endsWithStr_append ("mix:" ++ T) (":complete"))
  have hcP : wsClassify ("mix:" ++ T ++ ":progress") = some MsgType.progress :=
    wsClassify_of_ends_progress (endsWithStr_append ("mix:" ++ T) (":progress"))
  have hmC := wsProcessMsg_complete_cdn S u ("mix:" ++ T ++ ":complete") payload url dbOk d
    hcC hu hp hurl
  have hmP := wsProcessMsg_progress S dbOk ("mix:" ++ T ++ ":progress") q hcP
  have hfC : ([⟨"mix:" ++ T ++ ":complete", payload⟩] : List BusMsg).filter
      (fun m => wsDelivered m.channel) = [⟨"mix:" ++ T ++ ":complete", payload⟩] := by
    simp [List.filter_cons, hdC]
  have hfP : ([⟨"mix:" ++ T ++ ":progress", q⟩] : List BusMsg).filter
      (fun m => wsDelivered m.channel) = [⟨"mix:" ++ T ++ ":progress", q⟩] := by
    simp [List.filter_cons, hdP]
  refine ⟨hdP, hdC, hdE, ?_, ?_⟩
  · unfold wsFromBus
    rw [hfC]
    simp only [wsHandler]
    rw [wsRun_cons_exit _ _ _ _ _ (by rw [hmC]), hmC]
  · unfold wsFromBus
    rw [hfP]
    simp only [wsHandler]
    rw [wsRun_cons_continue _ _ _ _ (by rw [hmP]), hmP]
    simp [wsRun]

/-- Claim C4 witness: the cross-session forwarding and persistence
evaluated for a connection bound to one concrete session and a complete
message published for a different session. -/
theorem C4_cross_session_leak_witness :
    wsDelivered ("mix:" ++ "other" ++ ":complete") = true
    ∧ wsFromBus ("123e4567-e89b-12d3-a456-426614174000") (WsSetup.ok true) (fun _ => true)
        [⟨"mix:" ++ "other" ++ ":complete", "\x7b\"cdn_url\": \"u1\"\x7d"⟩]
      = ([GwAction.send (wsConnectedMsg ("123e4567-e89b-12d3-a456-426614174000")),
          GwAction.dbWrite
            (DbWrite.cdnUrl ("123e4567-e89b-12d3-a456-426614174000") ("u1")) true,
          GwAction.dbWrite
            (DbWrite.status ("123e4567-e89b-12d3-a456-426614174000") ("completed")) true,
          GwAction.send (wsEnvelope MsgType.complete ("\x7b\"cdn_url\": \"u1\"\x7d"))],
         some LoopExit.closed) := by
  have h := C4_cross_session_leak ("123e4567-e89b-12d3-a456-426614174000") ("other")
    ("123e4567-e89b-12d3-a456-426614174000") ("\x7b\"cdn_url\": \"u1\"\x7d") ("1") ("u1")
    (fun _ => true) (objOf [(("cdn_url"), Json.str ("u1"))]) rfl rfl rfl
  exact ⟨h.2.1, h.2.2.2.1⟩

/-- Claim C7 counterexample: the synthetic connected envelope delivered
by both adapters is {"type": "connected", "session_id": <id>} — it has
no data field — and the bus connect-failure report is {"error": <msg>}
with no type field at all; neither matches the claimed wire shape
{"type": t, "data": d}. -/
theorem C7_counterexample :
    jsonParse (wsConnectedMsg ("abc"))
        = some (Json.obj [(("session_id"), Json.str ("abc")), (("type"), Json.str ("connected"))])
    ∧ (Json.obj [(("session_id"), Json.str ("abc")),
        (("type"), Json.str ("connected"))]).getField ("data") = none
    ∧ jsonParse (wsRedisFailMsg ("boom"))
        = some (Json.obj [(("error"), Json.str ("Failed to connect to progress stream: boom"))])
    ∧ (Json.obj [(("error"),
        Json.str ("Failed to connect to progress stream: boom"))]).getField ("type") = none := by
  exact ⟨rfl, rfl, rfl, rfl⟩

/-- Claim C7 amended: bus-forwarded messages of the duplex adapter are
single JSON objects with exactly a data field and a type field naming
the message kind; but the synthetic connected envelope carries a
session_id field instead of data, the bus-failure reports are bare
{"error": ...} objects with no type field, and the event text of the
unidirectional adapter is a well-formed JSON object only when the raw
payload happens to be valid JSON. -/
theorem C7_wire_shape (t : MsgType) (p : String) :
    (∃ d : Json, wsEnvelope t p
        = Json.toString (Json.obj [(("data"), d), (("type"), Json.str (typeName t))]))
    ∧ jsonParse (sseEnvelope MsgType.progress ("1"))
        = some (Json.obj [(("data"), Json.num 1), (("type"), Json.str ("progress"))])
    ∧ jsonParse (sseEnvelope MsgType.progress ("hello")) = none := by
  refine ⟨?_, rfl, rfl⟩
  cases hp : jsonParse p with
  | some d =>
    refine ⟨d, ?_⟩
    unfold wsEnvelope
    rw [hp]
    rfl
  | none =>
    refine ⟨Json.obj [(("raw"), Json.str p)], ?_⟩
    unfold wsEnvelope
    rw [hp]
    rfl

/-- Claim C9 counterexample: for a connection whose session id does not
parse as a UUID (the transport accepts any path string), the bus
sequence progress(1), progress(2), complete makes the handler abort on
the complete message before forwarding it: the client observes only
connected, progress(1), progress(2) and never the complete envelope. -/
theorem C9_counterexample :
    uuidParse ("abc") = none
    ∧ wsHandler ("abc") (WsSetup.ok true) (fun _ => true)
        [⟨"mix:abc:progress", "1"⟩, ⟨"mix:abc:progress", "2"⟩, ⟨"mix:abc:complete", "\x7b\x7d"⟩]
      = ([GwAction.send (wsConnectedMsg ("abc")),
          GwAction.send (wsEnvelope MsgType.progress ("1")),
          GwAction.send (wsEnvelope MsgType.progress ("2"))], some LoopExit.earlyReturn) := by
  exact ⟨rfl, rfl⟩

/-- Claim C9 amended: for every connection whose session id parses as a
UUID, a bus emitting progress(1), progress(2), complete yields exactly
the client sequence connected, progress(1), progress(2), complete in
that order and nothing else, and the loop closes immediately after the
complete envelope is forwarded. -/
theorem C9_ordering (sid u : String) (dbOk : DbWrite → Bool) (hu : uuidParse sid = some u) :
    clientView (wsHandler sid (WsSetup.ok true) dbOk
        [⟨"mix:" ++ sid ++ ":progress", "1"⟩, ⟨"mix:" ++ sid ++ ":progress", "2"⟩,
         ⟨"mix:" ++ sid ++ ":complete", "\x7b\x7d"⟩]).1
      = [wsConnectedMsg sid, wsEnvelope MsgType.progress ("1"),
         wsEnvelope MsgType.progress ("2"), wsEnvelope MsgType.complete ("\x7b\x7d")]
    ∧ (wsHandler sid (WsSetup.ok true) dbOk
        [⟨"mix:" ++ sid ++ ":progress", "1"⟩, ⟨"mix:" ++ sid ++ ":progress", "2"⟩,
         ⟨"mix:" ++ sid ++ ":complete", "\x7b\x7d"⟩]).2 = some LoopExit.closed := by
  have hcP : wsClassify ("mix:" ++ sid ++ ":progress") = some MsgType.progress :=
    wsClassify_of_ends_progress (endsWithStr_append ("mix:" ++ sid) (":progress"))
  have hcC : wsClassify ("mix:" ++ sid ++ ":complete") = some MsgType.complete :=
    wsClassify_of_ends_complete (endsWithStr_append ("mix:" ++ sid) (":complete"))
  have h1 := wsProcessMsg_progress sid dbOk ("mix:" ++ sid ++ ":progress") ("1") hcP
  have h2 := wsProcessMsg_progress sid dbOk ("mix:" ++ sid ++ ":progress") ("2") hcP
  have h3 := wsProcessMsg_complete_nocdn sid u ("mix:" ++ sid ++ ":complete") ("\x7b\x7d") dbOk
    (objOf []) hcC hu rfl rfl
  refine ⟨?_, ?_⟩
  · simp only [wsHandler]
    rw [wsRun_cons_continue _ _ _ _ (by rw [h1]), wsRun_cons_continue _ _ _ _ (by rw [h2]),
      wsRun_cons_exit _ _ _ _ _ (by rw [h3]), h1, h2, h3]
    simp [clientView]
  · simp only [wsHandler]
    rw [wsRun_cons_continue _ _ _ _ (by rw [h1]), wsRun_cons_continue _ _ _ _ (by rw [h2]),
      wsRun_cons_exit _ _ _ _ _ (by rw [h3])]

/-- Claim C9 witness: the amended ordering evaluated at a concrete
uuid-named session. -/
theorem C9_ordering_witness :
    clientView (wsHandler ("123e4567-e89b-12d3-a456-426614174000") (WsSetup.ok true)
        (fun _ => true)
        [⟨"mix:" ++ "123e4567-e89b-12d3-a456-426614174000" ++ ":progress", "1"⟩,
         ⟨"mix:" ++ "123e4567-e89b-12d3-a456-426614174000" ++ ":progress", "2"⟩,
         ⟨"mix:" ++ "123e4567-e89b-12d3-a456-426614174000" ++ ":complete", "\x7b\x7d"⟩]).1
      = [wsConnectedMsg ("123e4567-e89b-12d3-a456-426614174000"),
         wsEnvelope MsgType.progress ("1"), wsEnvelope MsgType.progress ("2"),
         wsEnvelope MsgType.complete ("\x7b\x7d")]
    ∧ (wsHandler ("123e4567-e89b-12d3-a456-426614174000") (WsSetup.ok true) (fun _ => true)
        [⟨"mix:" ++ "123e4567-e89b-12d3-a456-426614174000" ++ ":progress", "1"⟩,
         ⟨"mix:" ++ "123e4567-e89b-12d3-a456-426614174000" ++ ":progress", "2"⟩,
         ⟨"mix:" ++ "123e4567-e89b-12d3-a456-426614174000" ++ ":complete", "\x7b\x7d"⟩]).2
      = some LoopExit.closed := by
  exact C9_ordering ("123e4567-e89b-12d3-a456-426614174000")
    ("123e4567-e89b-12d3-a456-426614174000") (fun _ => true) rfl
